import Mathlib

/-!
Shallow embedding of the two scripts of this repository:

* `merge_lora.py` (the Fetcher): downloads a full model snapshot from the hub
  into a hardcoded local directory, with `local_dir_use_symlinks=False` and
  `resume_download=True`.
* `test_model.py` (the Smoke Tester): loads tokenizer and model from a
  hardcoded local path, renders a one-turn chat prompt, runs a bounded sampled
  generation and prints the decoded output together with token counts.

External library calls (hub download, tokenizer and model loading, template
rendering, tokenization, generation, decoding) are opaque capabilities; they
are represented as function-valued fields of environment structures, each
returning `Except String _` to model a Python call that can raise.  The
scripts themselves are straight-line code; the embedding additionally records
the sequence of steps the run performed, so that ordering and error
propagation can be stated.
-/

/-! ## Configuration constants (from the sources) -/

/-- `MODEL_ID = "professorsynapse/nexus-tools_sft17"` in `merge_lora.py`. -/
def MODEL_ID : String := "professorsynapse/nexus-tools_sft17"

/-- `OUTPUT_DIR = "./nexus-tools-merged"` in `merge_lora.py`. -/
def OUTPUT_DIR : String := "./nexus-tools-merged"

/-- `MODEL_PATH = "./nexus-tools-merged"` in `test_model.py`. -/
def MODEL_PATH : String := "./nexus-tools-merged"

/-- Characters of a path with any trailing slashes removed: two path strings
with the same `pathChars` denote the same filesystem directory. -/
def pathChars (s : String) : List Char :=
  (s.data.reverse.dropWhile (fun c => c = '/')).reverse

/-! ## Data of the Smoke Tester -/

/-- A chat message: a role and a text content (`{"role": ..., "content": ...}`). -/
structure ChatMessage where
  role : String
  content : String
deriving DecidableEq, Repr

/-- The message list built in `test_model.py` lines 21-23. -/
def testMessages : List ChatMessage :=
  [{ role := "user", content := "Hello! What can you help me with?" }]

/-- The keyword arguments of the `model.generate` call
(`max_new_tokens`, `temperature`, `do_sample`, `pad_token_id`). -/
structure GenArgs where
  maxNewTokens : Nat
  temperature : ℚ
  doSample : Bool
  padTokenId : Option Nat
deriving DecidableEq, Repr

/-- A tokenizer as used by `test_model.py`: chat-template rendering
(arguments: messages, `tokenize`, `add_generation_prompt`), encoding,
decoding (argument: `skip_special_tokens`), and its padding token id
(`pad_token_id`, absent for tokenizers that define none). -/
structure Tokenizer where
  applyChatTemplate : List ChatMessage → Bool → Bool → Except String String
  encode : String → Except String (List Nat)
  decode : List Nat → Bool → Except String String
  padTokenId : Option Nat

/-- A causal-LM model as used by `test_model.py`: its compute device and a
generation function from an input token sequence and generation arguments to
the full output token sequence (input prefix plus newly generated tokens). -/
structure Model where
  device : String
  generate : List Nat → GenArgs → Except String (List Nat)

/-- The external loading capabilities the Smoke Tester consumes:
`AutoTokenizer.from_pretrained(path)` and
`AutoModelForCausalLM.from_pretrained(path, torch_dtype, device_map)`. -/
structure Env where
  loadTokenizer : String → Except String Tokenizer
  loadModel : String → String → String → Except String Model

/-- One step of the Smoke Tester, with the arguments the script passes to it. -/
inductive Step where
  | loadTokenizer (path : String)
  | loadModel (path : String) (torchDtype : String) (deviceMap : String)
  | renderPrompt (tokenize : Bool) (addGenerationPrompt : Bool)
  | tokenize (device : String)
  | generate (args : GenArgs)
  | decode (skipSpecialTokens : Bool)
deriving DecidableEq, Repr

/-- The position of a step in the Smoke Tester's fixed linear order. -/
def Step.tag : Step → Nat
  | .loadTokenizer _ => 0
  | .loadModel _ _ _ => 1
  | .renderPrompt _ _ => 2
  | .tokenize _ => 3
  | .generate _ => 4
  | .decode _ => 5

/-- Everything the Smoke Tester prints at the end of a successful run,
together with the intermediate token sequences it was computed from. -/
structure SmokeResult where
  prompt : String
  promptPreview : String
  inputIds : List Nat
  inputTokenCount : Nat
  outputs : List Nat
  response : String
  generated : Int
deriving DecidableEq, Repr

/-- The outcome of one run: the steps that were started, in order, and either
the final report or the first uncaught error. -/
structure RunOutcome where
  steps : List Step
  result : Except String SmokeResult

/-- The generation arguments `test_model.py` lines 31-37 pass to
`model.generate`: `max_new_tokens=100, temperature=0.7, do_sample=True,
pad_token_id=tokenizer.pad_token_id`. -/
def smokeGenArgs (t : Tokenizer) : GenArgs :=
  { maxNewTokens := 100, temperature := (7 : ℚ)/10, doSample := true,
    padTokenId := t.padTokenId }

/-- `test_model.py` lines 10-41 as straight-line code over the environment:
load tokenizer, load model (`torch_dtype=torch.float16, device_map="auto"`),
render the chat prompt (`tokenize=False, add_generation_prompt=True`),
tokenize it onto the model's device, generate
(`max_new_tokens=100, temperature=0.7, do_sample=True,
pad_token_id=tokenizer.pad_token_id`), decode
(`skip_special_tokens=True`).  Each call can raise; the first error aborts
the run and is returned unchanged. -/
def runSmokeTest (env : Env) : RunOutcome :=
  match env.loadTokenizer MODEL_PATH with
  | .error e => ⟨[.loadTokenizer MODEL_PATH], .error e⟩
  | .ok tokenizer =>
    match env.loadModel MODEL_PATH "float16" "auto" with
    | .error e =>
        ⟨[.loadTokenizer MODEL_PATH, .loadModel MODEL_PATH "float16" "auto"], .error e⟩
    | .ok model =>
      match tokenizer.applyChatTemplate testMessages false true with
      | .error e =>
          ⟨[.loadTokenizer MODEL_PATH, .loadModel MODEL_PATH "float16" "auto",
            .renderPrompt false true], .error e⟩
      | .ok prompt =>
        match tokenizer.encode prompt with
        | .error e =>
            ⟨[.loadTokenizer MODEL_PATH, .loadModel MODEL_PATH "float16" "auto",
              .renderPrompt false true, .tokenize model.device], .error e⟩
        | .ok inputIds =>
          match model.generate inputIds (smokeGenArgs tokenizer) with
          | .error e =>
              ⟨[.loadTokenizer MODEL_PATH, .loadModel MODEL_PATH "float16" "auto",
                .renderPrompt false true, .tokenize model.device,
                .generate (smokeGenArgs tokenizer)],
               .error e⟩
          | .ok outputs =>
            match tokenizer.decode outputs true with
            | .error e =>
                ⟨[.loadTokenizer MODEL_PATH, .loadModel MODEL_PATH "float16" "auto",
                  .renderPrompt false true, .tokenize model.device,
                  .generate (smokeGenArgs tokenizer),
                  .decode true], .error e⟩
            | .ok response =>
                ⟨[.loadTokenizer MODEL_PATH, .loadModel MODEL_PATH "float16" "auto",
                  .renderPrompt false true, .tokenize model.device,
                  .generate (smokeGenArgs tokenizer),
                  .decode true],
                 .ok { prompt := prompt
                       promptPreview := prompt.take 200
                       inputIds := inputIds
                       inputTokenCount := inputIds.length
                       outputs := outputs
                       response := response
                       generated := (outputs.length : Int) - (inputIds.length : Int) }⟩

/-- Exit status of the Smoke Tester process: 0 on success, 1 when an
exception propagated uncaught to the top level. -/
def RunOutcome.exitCode (o : RunOutcome) : Nat :=
  match o.result with
  | .ok _ => 0
  | .error _ => 1

/-- The library contract of autoregressive generation, as the spec describes
it: the output sequence extends the input sequence by at least one and at
most `maxNewTokens` newly generated tokens (at least one whenever the cap is
positive). -/
def GenerateContract (m : Model) : Prop :=
  ∀ ids args out, m.generate ids args = .ok out →
    ids <+: out ∧
    (0 < args.maxNewTokens → ids.length < out.length) ∧
    out.length ≤ ids.length + args.maxNewTokens

/-- The rendering/decoding contract of a tokenizer, as the spec describes it:
decoding any token sequence it produced-plus-continuation yields a text whose
relation to the prompt is opaque; nothing beyond determinism is assumed. -/
def EnvGenContract (env : Env) : Prop :=
  ∀ path dtype dmap m, env.loadModel path dtype dmap = .ok m → GenerateContract m

/-! ## Data of the Fetcher -/

/-- The keyword arguments of the `snapshot_download` call
(`repo_id`, `local_dir`, `local_dir_use_symlinks`, `resume_download`). -/
structure SnapshotArgs where
  repoId : String
  localDir : String
  localDirUseSymlinks : Bool
  resumeDownload : Bool
deriving DecidableEq, Repr

/-- The arguments `merge_lora.py` lines 15-20 pass to `snapshot_download`. -/
def fetcherArgs : SnapshotArgs :=
  { repoId := MODEL_ID, localDir := OUTPUT_DIR,
    localDirUseSymlinks := false, resumeDownload := true }

/-- `merge_lora.py` as straight-line code over an opaque hub client: a single
`snapshot_download` call with the hardcoded arguments; any error it raises
propagates unchanged. -/
def runFetcher (hub : SnapshotArgs → Except String Unit) : Except String Unit :=
  hub fetcherArgs

/-- Exit status of the Fetcher process: 0 on success, 1 when the download
call raised and the exception propagated uncaught. -/
def fetcherExitCode (hub : SnapshotArgs → Except String Unit) : Nat :=
  match runFetcher hub with
  | .ok _ => 0
  | .error _ => 1

/-- Kind of a directory entry: a materialized regular file or a symbolic link. -/
inductive EntryKind where
  | regular
  | symlink
deriving DecidableEq, Repr

/-- A destination-directory entry: its file name, its kind, and how many of
the file's bytes are present (fewer than the full size for a partial file). -/
structure FileEntry where
  name : String
  kind : EntryKind
  bytes : Nat
deriving DecidableEq, Repr

/-- What the download did for one file of the snapshot. -/
inductive FileAction where
  | skipped
  | resumed (remaining : Nat)
  | downloaded (size : Nat)
deriving DecidableEq, Repr

/-- Look a file name up in a destination directory. -/
def findEntry (dir : List FileEntry) (n : String) : Option FileEntry :=
  dir.find? (fun e => e.name == n)

/-- The kind of entry the download materializes, as selected by
`local_dir_use_symlinks`. -/
def materializedKind (args : SnapshotArgs) : EntryKind :=
  if args.localDirUseSymlinks then .symlink else .regular

/-- Modelled from the spec: the per-file behavior of the hub client's
`snapshot_download` (the `huggingface_hub` library, which is not part of this
repository's sources).  A repo file is a name with a size.  When resuming is
enabled and the destination already holds a complete regular copy, the file
is skipped; when it holds a partial regular copy, only the remaining bytes
are fetched; otherwise the file is downloaded in full and materialized as a
symlink or a real copy according to `local_dir_use_symlinks`. -/
def fetchFile (args : SnapshotArgs) (dir : List FileEntry) (f : String × Nat) :
    FileEntry × FileAction :=
  match findEntry dir f.1 with
  | some e =>
      if args.resumeDownload = true ∧ e.kind = .regular ∧ e.bytes = f.2 then
        (e, .skipped)
      else if args.resumeDownload = true ∧ e.kind = .regular ∧ e.bytes < f.2 then
        ({ name := f.1, kind := .regular, bytes := f.2 }, .resumed (f.2 - e.bytes))
      else
        ({ name := f.1, kind := materializedKind args, bytes := f.2 }, .downloaded f.2)
  | none => ({ name := f.1, kind := materializedKind args, bytes := f.2 }, .downloaded f.2)

/-- Modelled from the spec: `snapshot_download` retrieves every file of the
remote snapshot into the destination directory (full snapshot retrieval, per
file as in `fetchFile`), returning the final directory contents and the
per-file actions. -/
def snapshot_download (repo : List (String × Nat)) (args : SnapshotArgs)
    (dir : List FileEntry) : List FileEntry × List FileAction :=
  ((repo.map (fun f => (fetchFile args dir f).1)),
   (repo.map (fun f => (fetchFile args dir f).2)))

/-- The Fetcher's download step on the filesystem model: the single
`snapshot_download` call of `merge_lora.py` with its hardcoded arguments. -/
def runFetcherFS (repo : List (String × Nat)) (dir : List FileEntry) :
    List FileEntry × List FileAction :=
  snapshot_download repo fetcherArgs dir

/-! ## Concrete sample environments (for witnesses) -/

/-- A minimal concrete tokenizer whose calls all succeed; it defines no
padding token. -/
def toyTokenizer : Tokenizer :=
  { applyChatTemplate := fun _ _ _ => .ok "chat"
    encode := fun _ => .ok [1, 2, 3]
    decode := fun _ _ => .ok "chat ok"
    padTokenId := none }

/-- A minimal concrete model: it echoes its input and appends one newly
generated token whenever the cap allows one. -/
def toyModel : Model :=
  { device := "cpu"
    generate := fun ids args => .ok (ids ++ List.replicate (min 1 args.maxNewTokens) 0) }

/-- An environment in which every load succeeds with the toy artifacts. -/
def toyEnv : Env :=
  { loadTokenizer := fun _ => .ok toyTokenizer
    loadModel := fun _ _ _ => .ok toyModel }

/-- An environment for a directory missing required files: loading the
tokenizer raises. -/
def missingFilesEnv : Env :=
  { loadTokenizer := fun _ => .error "tokenizer files not found"
    loadModel := fun _ _ _ => .error "weights not found" }

/-- The final report of the run on the toy environment. -/
def toyResult : SmokeResult :=
  { prompt := "chat", promptPreview := "chat", inputIds := [1, 2, 3],
    inputTokenCount := 3, outputs := [1, 2, 3, 0], response := "chat ok",
    generated := 1 }

/-- A hub client whose download raises a network failure. -/
def failHub : SnapshotArgs → Except String Unit :=
  fun _ => .error "network failure"

/-- The directory entry left for a repo file after the Fetcher materialized
it in full: a complete real copy. -/
def completedEntry (f : String × Nat) : FileEntry :=
  { name := f.1, kind := .regular, bytes := f.2 }

/-- A one-file remote snapshot. -/
def demoRepo : List (String × Nat) := [("weights.bin", 10)]

/-- A destination directory holding a partial copy of that file. -/
def demoDir : List FileEntry :=
  [{ name := "weights.bin", kind := .regular, bytes := 4 }]

/-! ## Helper lemmas -/

/-- The canonical six-step trace of a successful Smoke Tester run. -/
def smokeSteps (t : Tokenizer) (m : Model) : List Step :=
  [.loadTokenizer MODEL_PATH, .loadModel MODEL_PATH "float16" "auto",
   .renderPrompt false true, .tokenize m.device, .generate (smokeGenArgs t),
   .decode true]

theorem runSmokeTest_ok_elim (env : Env) (r : SmokeResult)
    (h : (runSmokeTest env).result = .ok r) :
    ∃ t m prompt inputIds outputs response,
      env.loadTokenizer MODEL_PATH = .ok t ∧
      env.loadModel MODEL_PATH "float16" "auto" = .ok m ∧
      t.applyChatTemplate testMessages false true = .ok prompt ∧
      t.encode prompt = .ok inputIds ∧
      m.generate inputIds (smokeGenArgs t) = .ok outputs ∧
      t.decode outputs true = .ok response ∧
      r = { prompt := prompt, promptPreview := prompt.take 200,
            inputIds := inputIds, inputTokenCount := inputIds.length,
            outputs := outputs, response := response,
            generated := (outputs.length : Int) - (inputIds.length : Int) } ∧
      (runSmokeTest env).steps = smokeSteps t m := by
  cases h1 : env.loadTokenizer MODEL_PATH with
  | error e => simp [runSmokeTest, h1] at h
  | ok t =>
  cases h2 : env.loadModel MODEL_PATH "float16" "auto" with
  | error e => simp [runSmokeTest, h1, h2] at h
  | ok m =>
  cases h3 : t.applyChatTemplate testMessages false true with
  | error e => simp [runSmokeTest, h1, h2, h3] at h
  | ok prompt =>
  cases h4 : t.encode prompt with
  | error e => simp [runSmokeTest, h1, h2, h3, h4] at h
  | ok inputIds =>
  cases h5 : m.generate inputIds (smokeGenArgs t) with
  | error e => simp [runSmokeTest, h1, h2, h3, h4, h5] at h
  | ok outputs =>
  cases h6 : t.decode outputs true with
  | error e => simp [runSmokeTest, h1, h2, h3, h4, h5, h6] at h
  | ok response =>
  refine ⟨t, m, prompt, inputIds, outputs, response, rfl, rfl, h3, h4, h5, h6, ?_, ?_⟩
  · simp [runSmokeTest, h1, h2, h3, h4, h5, h6] at h
    exact h.symm
  · simp [runSmokeTest, h1, h2, h3, h4, h5, h6, smokeSteps]

set_option maxRecDepth 4000 in
theorem runSmokeTest_toy :
    runSmokeTest toyEnv = ⟨smokeSteps toyTokenizer toyModel, .ok toyResult⟩ := by
  rfl

theorem toyModel_contract : GenerateContract toyModel := by
  intro ids args out hout
  simp only [toyModel, Except.ok.injEq] at hout
  subst hout
  refine ⟨List.prefix_append _ _, ?_, ?_⟩
  · intro hpos
    have hmin : min 1 args.maxNewTokens = 1 := Nat.min_eq_left (by omega)
    simp [hmin]
  · have := Nat.min_le_right 1 args.maxNewTokens
    simp only [List.length_append, List.length_replicate]
    omega

theorem toyEnv_contract : EnvGenContract toyEnv := by
  intro path dtype dmap m hm
  simp only [toyEnv, Except.ok.injEq] at hm
  exact hm ▸ toyModel_contract

theorem generate_step_args (env : Env) (args : GenArgs)
    (hmem : Step.generate args ∈ (runSmokeTest env).steps) :
    ∃ t, env.loadTokenizer MODEL_PATH = .ok t ∧ args = smokeGenArgs t := by
  cases h1 : env.loadTokenizer MODEL_PATH with
  | error e => simp [runSmokeTest, h1] at hmem
  | ok t =>
  refine ⟨t, rfl, ?_⟩
  cases h2 : env.loadModel MODEL_PATH "float16" "auto" with
  | error e => simp [runSmokeTest, h1, h2] at hmem
  | ok m =>
  cases h3 : t.applyChatTemplate testMessages false true with
  | error e => simp [runSmokeTest, h1, h2, h3] at hmem
  | ok prompt =>
  cases h4 : t.encode prompt with
  | error e => simp [runSmokeTest, h1, h2, h3, h4] at hmem
  | ok inputIds =>
  cases h5 : m.generate inputIds (smokeGenArgs t) with
  | error e =>
      simp [runSmokeTest, h1, h2, h3, h4, h5] at hmem
      exact hmem
  | ok outputs =>
  cases h6 : t.decode outputs true with
  | error e =>
      simp [runSmokeTest, h1, h2, h3, h4, h5, h6] at hmem
      exact hmem
  | ok response =>
      simp [runSmokeTest, h1, h2, h3, h4, h5, h6] at hmem
      exact hmem

/-! ## Claims -/

/-- C1: For every run of the Smoke Tester that reaches the final report (and
whose loaded model honors the generation contract), the printed
generated-token count — output sequence length minus input sequence length —
is strictly greater than 0 and at most 100, the configured cap passed as the
maximum number of new tokens. -/
theorem smoke_generated_count_in_cap (env : Env) (r : SmokeResult)
    (hc : EnvGenContract env) (h : (runSmokeTest env).result = .ok r) :
    0 < r.generated ∧ r.generated ≤ 100 := by
  obtain ⟨t, m, prompt, ids, outs, resp, h1, h2, h3, h4, h5, h6, hr, hsteps⟩ :=
    runSmokeTest_ok_elim env r h
  obtain ⟨-, hlt, hle⟩ := hc _ _ _ _ h2 _ _ _ h5
  have hlt' : ids.length < outs.length := hlt (by norm_num [smokeGenArgs])
  have hle' : outs.length ≤ ids.length + 100 := hle
  subst hr
  constructor
  · show 0 < (outs.length : Int) - (ids.length : Int)
    omega
  · show (outs.length : Int) - (ids.length : Int) ≤ 100
    omega

theorem smoke_generated_count_in_cap_witness :
    0 < toyResult.generated ∧ toyResult.generated ≤ 100 :=
  smoke_generated_count_in_cap toyEnv toyResult toyEnv_contract
    (by rw [runSmokeTest_toy])

/-- C2: For every Smoke Tester run that reaches the final report (with the
generation contract), the decoded response is consistent with the reported
input and generated token counts: the output sequence is the input sequence
followed by the newly generated tokens, the reported counts match its
lengths, and the printed response is the loaded tokenizer's decoding of that
full output sequence with special tokens skipped. -/
theorem smoke_decoding_consistent (env : Env) (r : SmokeResult)
    (hc : EnvGenContract env) (h : (runSmokeTest env).result = .ok r) :
    ∃ t gen,
      env.loadTokenizer MODEL_PATH = .ok t ∧
      r.outputs = r.inputIds ++ gen ∧
      r.inputTokenCount = r.inputIds.length ∧
      r.generated = (gen.length : Int) ∧
      gen.length ≤ 100 ∧
      t.decode r.outputs true = .ok r.response := by
  obtain ⟨t, m, prompt, ids, outs, resp, h1, h2, h3, h4, h5, h6, hr, hsteps⟩ :=
    runSmokeTest_ok_elim env r h
  obtain ⟨hpre, hlt, hle⟩ := hc _ _ _ _ h2 _ _ _ h5
  obtain ⟨gen, hgen⟩ := hpre
  have hle' : outs.length ≤ ids.length + 100 := hle
  subst hr
  refine ⟨t, gen, h1, ?_, rfl, ?_, ?_, ?_⟩
  · exact hgen.symm
  · show (outs.length : Int) - (ids.length : Int) = gen.length
    have : outs.length = ids.length + gen.length := by
      rw [← hgen, List.length_append]
    omega
  · have : outs.length = ids.length + gen.length := by
      rw [← hgen, List.length_append]
    omega
  · exact h6

theorem smoke_decoding_consistent_witness :
    ∃ t gen,
      toyEnv.loadTokenizer MODEL_PATH = .ok t ∧
      toyResult.outputs = toyResult.inputIds ++ gen ∧
      toyResult.inputTokenCount = toyResult.inputIds.length ∧
      toyResult.generated = (gen.length : Int) ∧
      gen.length ≤ 100 ∧
      t.decode toyResult.outputs true = .ok toyResult.response :=
  smoke_decoding_consistent toyEnv toyResult toyEnv_contract
    (by rw [runSmokeTest_toy])

/-- C7: For every Smoke Tester run that reaches the final report, the printed
"Generated" count equals the total output sequence length minus the printed
input token count, exactly. -/
theorem smoke_generated_eq_output_minus_input (env : Env) (r : SmokeResult)
    (h : (runSmokeTest env).result = .ok r) :
    r.generated = (r.outputs.length : Int) - (r.inputTokenCount : Int) := by
  obtain ⟨t, m, prompt, ids, outs, resp, h1, h2, h3, h4, h5, h6, hr, hsteps⟩ :=
    runSmokeTest_ok_elim env r h
  subst hr
  rfl

theorem smoke_generated_eq_output_minus_input_witness :
    toyResult.generated =
      (toyResult.outputs.length : Int) - (toyResult.inputTokenCount : Int) :=
  smoke_generated_eq_output_minus_input toyEnv toyResult (by rw [runSmokeTest_toy])

/-- C6: Every generation call made by the Smoke Tester uses sampling
(`do_sample=True`) with temperature 0.7, a maximum of 100 new tokens, and the
loaded tokenizer's designated padding token id as the padding token. -/
theorem smoke_generation_call_args (env : Env) (args : GenArgs)
    (hmem : Step.generate args ∈ (runSmokeTest env).steps) :
    ∃ t, env.loadTokenizer MODEL_PATH = .ok t ∧
      args.maxNewTokens = 100 ∧ args.temperature = (7 : ℚ)/10 ∧
      args.doSample = true ∧ args.padTokenId = t.padTokenId := by
  obtain ⟨t, h1, rfl⟩ := generate_step_args env args hmem
  exact ⟨t, h1, rfl, rfl, rfl, rfl⟩

theorem smoke_generation_call_args_witness :
    ∃ t, toyEnv.loadTokenizer MODEL_PATH = .ok t ∧
      (smokeGenArgs toyTokenizer).maxNewTokens = 100 ∧
      (smokeGenArgs toyTokenizer).temperature = (7 : ℚ)/10 ∧
      (smokeGenArgs toyTokenizer).doSample = true ∧
      (smokeGenArgs toyTokenizer).padTokenId = t.padTokenId :=
  smoke_generation_call_args toyEnv (smokeGenArgs toyTokenizer)
    (by rw [runSmokeTest_toy]; simp [smokeSteps])

/-- C8: Neither script catches, retries or translates any failure: an error
raised by the tokenizer load, the model load, the generate call, or the
snapshot download propagates unchanged as the process outcome with a
non-zero exit status; a Smoke Tester run on a directory missing required
files produces no generation result and performs no generate call. -/
theorem failures_propagate (env : Env) (hub : SnapshotArgs → Except String Unit) :
    (∀ e, env.loadTokenizer MODEL_PATH = .error e →
      (runSmokeTest env).result = .error e ∧
      (runSmokeTest env).exitCode ≠ 0 ∧
      ∀ args, Step.generate args ∉ (runSmokeTest env).steps) ∧
    (∀ t e, env.loadTokenizer MODEL_PATH = .ok t →
      env.loadModel MODEL_PATH "float16" "auto" = .error e →
      (runSmokeTest env).result = .error e ∧ (runSmokeTest env).exitCode ≠ 0) ∧
    (∀ t m prompt ids e,
      env.loadTokenizer MODEL_PATH = .ok t →
      env.loadModel MODEL_PATH "float16" "auto" = .ok m →
      t.applyChatTemplate testMessages false true = .ok prompt →
      t.encode prompt = .ok ids →
      m.generate ids (smokeGenArgs t) = .error e →
      (runSmokeTest env).result = .error e ∧ (runSmokeTest env).exitCode ≠ 0) ∧
    (∀ e, hub fetcherArgs = .error e →
      runFetcher hub = .error e ∧ fetcherExitCode hub ≠ 0) := by
  refine ⟨?_, ?_, ?_, ?_⟩
  · intro e he
    refine ⟨?_, ?_, ?_⟩ <;> simp [runSmokeTest, he, RunOutcome.exitCode]
  · intro t e h1 h2
    constructor <;> simp [runSmokeTest, h1, h2, RunOutcome.exitCode]
  · intro t m prompt ids e h1 h2 h3 h4 h5
    constructor <;> simp [runSmokeTest, h1, h2, h3, h4, h5, RunOutcome.exitCode]
  · intro e he
    constructor <;> simp [runFetcher, fetcherExitCode, he]

theorem failures_propagate_witness :
    (runSmokeTest missingFilesEnv).result = .error "tokenizer files not found" ∧
    (runSmokeTest missingFilesEnv).exitCode ≠ 0 ∧
    (∀ args, Step.generate args ∉ (runSmokeTest missingFilesEnv).steps) ∧
    runFetcher failHub = .error "network failure" ∧
    fetcherExitCode failHub ≠ 0 := by
  obtain ⟨ha, -, -, hd⟩ := failures_propagate missingFilesEnv failHub
  obtain ⟨w1, w2, w3⟩ := ha "tokenizer files not found" rfl
  obtain ⟨w4, w5⟩ := hd "network failure" rfl
  exact ⟨w1, w2, w3, w4, w5⟩

/-- C9: The Smoke Tester executes its six steps in a fixed linear order —
load tokenizer, load model, render the chat prompt (without tokenizing, with
the generation cue appended), tokenize onto the model's device, generate,
decode — every run's step sequence is a prefix of that order, and the full
sequence is reached exactly when every step succeeded. -/
theorem smoke_steps_linear (env : Env) :
    ((runSmokeTest env).steps.map Step.tag) <+: [0, 1, 2, 3, 4, 5] ∧
    (∀ r, (runSmokeTest env).result = .ok r →
      ∃ t m, env.loadTokenizer MODEL_PATH = .ok t ∧
        env.loadModel MODEL_PATH "float16" "auto" = .ok m ∧
        (runSmokeTest env).steps = smokeSteps t m) := by
  constructor
  · cases h1 : env.loadTokenizer MODEL_PATH with
    | error e =>
        simp only [runSmokeTest, h1]
        exact ⟨[1, 2, 3, 4, 5], rfl⟩
    | ok t =>
    cases h2 : env.loadModel MODEL_PATH "float16" "auto" with
    | error e =>
        simp only [runSmokeTest, h1, h2]
        exact ⟨[2, 3, 4, 5], rfl⟩
    | ok m =>
    cases h3 : t.applyChatTemplate testMessages false true with
    | error e =>
        simp only [runSmokeTest, h1, h2, h3]
        exact ⟨[3, 4, 5], rfl⟩
    | ok prompt =>
    cases h4 : t.encode prompt with
    | error e =>
        simp only [runSmokeTest, h1, h2, h3, h4]
        exact ⟨[4, 5], rfl⟩
    | ok inputIds =>
    cases h5 : m.generate inputIds (smokeGenArgs t) with
    | error e =>
        simp only [runSmokeTest, h1, h2, h3, h4, h5]
        exact ⟨[5], rfl⟩
    | ok outputs =>
    cases h6 : t.decode outputs true with
    | error e =>
        simp only [runSmokeTest, h1, h2, h3, h4, h5, h6]
        exact ⟨[], rfl⟩
    | ok response =>
        simp only [runSmokeTest, h1, h2, h3, h4, h5, h6]
        exact ⟨[], rfl⟩
  · intro r h
    obtain ⟨t, m, prompt, ids, outs, resp, h1, h2, h3, h4, h5, h6, hr, hsteps⟩ :=
      runSmokeTest_ok_elim env r h
    exact ⟨t, m, h1, h2, hsteps⟩

theorem smoke_steps_linear_witness :
    ∃ t m, toyEnv.loadTokenizer MODEL_PATH = .ok t ∧
      toyEnv.loadModel MODEL_PATH "float16" "auto" = .ok m ∧
      (runSmokeTest toyEnv).steps = smokeSteps t m :=
  (smoke_steps_linear toyEnv).2 toyResult (by rw [runSmokeTest_toy])

/-- C10: The Smoke Tester forwards the tokenizer's padding token id to
generation unconditionally, with no fallback: when the loaded tokenizer
defines no padding token, the padding token id passed to every generate call
is the absent value, not a substitute such as an end-of-sequence id. -/
theorem smoke_pad_token_no_fallback (env : Env) (t : Tokenizer) (args : GenArgs)
    (h1 : env.loadTokenizer MODEL_PATH = .ok t)
    (hmem : Step.generate args ∈ (runSmokeTest env).steps)
    (hnone : t.padTokenId = none) :
    args.padTokenId = none := by
  obtain ⟨t', h1', rfl⟩ := generate_step_args env args hmem
  have ht : t = t' := Except.ok.inj (h1.symm.trans h1')
  show (smokeGenArgs t').padTokenId = none
  rw [smokeGenArgs, ← ht]
  exact hnone

theorem smoke_pad_token_no_fallback_witness :
    (smokeGenArgs toyTokenizer).padTokenId = none :=
  smoke_pad_token_no_fallback toyEnv toyTokenizer (smokeGenArgs toyTokenizer)
    rfl (by rw [runSmokeTest_toy]; simp [smokeSteps]) rfl

/-- C5: The Fetcher's hardcoded output directory constant and the Smoke
Tester's hardcoded model path constant are the same string, and both denote
the filesystem path `./nexus-tools-merged/`; the Fetcher's download
destination is exactly the directory the Smoke Tester reads from. -/
theorem output_dir_eq_model_path :
    OUTPUT_DIR = MODEL_PATH ∧
    fetcherArgs.localDir = MODEL_PATH ∧
    pathChars OUTPUT_DIR = pathChars "./nexus-tools-merged/" ∧
    pathChars MODEL_PATH = pathChars "./nexus-tools-merged/" := by
  refine ⟨rfl, rfl, ?_, ?_⟩ <;> decide

theorem fetchFile_fetcher_fst (dir : List FileEntry) (f : String × Nat) :
    (fetchFile fetcherArgs dir f).1 = completedEntry f := by
  cases hf : findEntry dir f.1 with
  | none => simp [fetchFile, hf, materializedKind, fetcherArgs, completedEntry]
  | some e =>
    have hname : e.name = f.1 := by
      have hp := List.find?_some (p := fun x : FileEntry => x.name == f.1)
          (by simpa [findEntry] using hf)
      simpa [beq_iff_eq] using hp
    simp only [fetchFile, hf]
    split_ifs with h1 h2
    · obtain ⟨-, hk, hb⟩ := h1
      obtain ⟨n, k, b⟩ := e
      simp_all [completedEntry]
    · simp [completedEntry]
    · simp [materializedKind, fetcherArgs, completedEntry]

theorem snapshot_fetcher_fst (repo : List (String × Nat)) (dir : List FileEntry) :
    (snapshot_download repo fetcherArgs dir).1 = repo.map completedEntry := by
  unfold snapshot_download
  exact List.map_congr_left (fun f _ => fetchFile_fetcher_fst dir f)

theorem findEntry_completed (repo : List (String × Nat)) (f : String × Nat) :
    (repo.map Prod.fst).Nodup → f ∈ repo →
    findEntry (repo.map completedEntry) f.1 = some (completedEntry f) := by
  induction repo with
  | nil => intro _ hf; cases hf
  | cons a rest ih =>
    intro hnd hf
    simp only [List.map_cons, List.nodup_cons] at hnd
    obtain ⟨hna, hnr⟩ := hnd
    rcases List.mem_cons.mp hf with rfl | hf'
    · unfold findEntry
      rw [List.map_cons,
        List.find?_cons_of_pos (p := fun x : FileEntry => x.name == f.1) _
          (by simp [completedEntry])]
    · have hne : ¬((completedEntry a).name == f.1) = true := by
        simp only [completedEntry, beq_iff_eq]
        intro he
        exact hna (he ▸ List.mem_map_of_mem Prod.fst hf')
      unfold findEntry
      rw [List.map_cons,
        List.find?_cons_of_neg (p := fun x : FileEntry => x.name == f.1) _ hne]
      exact ih hnr hf'

theorem fetchFile_completed (repo : List (String × Nat)) (f : String × Nat)
    (hnd : (repo.map Prod.fst).Nodup) (hf : f ∈ repo) :
    fetchFile fetcherArgs (repo.map completedEntry) f =
      (completedEntry f, FileAction.skipped) := by
  simp only [fetchFile, findEntry_completed repo f hnd hf]
  rw [if_pos ⟨rfl, rfl, rfl⟩]

/-- C3: The Fetcher requests the snapshot download with symbolic links
disabled and resume enabled; after its run every destination entry is a
regular file, and a file left partial by an earlier run is resumed (only the
remaining bytes fetched) rather than restarted. -/
theorem fetcher_no_symlinks_resume (repo : List (String × Nat)) (dir : List FileEntry) :
    fetcherArgs.localDirUseSymlinks = false ∧
    fetcherArgs.resumeDownload = true ∧
    (∀ ent, ent ∈ (runFetcherFS repo dir).1 → ent.kind = EntryKind.regular) ∧
    (∀ f ent, f ∈ repo → findEntry dir f.1 = some ent →
      ent.kind = EntryKind.regular → ent.bytes < f.2 →
      (fetchFile fetcherArgs dir f).2 = FileAction.resumed (f.2 - ent.bytes) ∧
      FileAction.resumed (f.2 - ent.bytes) ∈ (runFetcherFS repo dir).2) := by
  refine ⟨rfl, rfl, ?_, ?_⟩
  · intro ent hm
    rw [show (runFetcherFS repo dir).1 = repo.map completedEntry from
      snapshot_fetcher_fst repo dir] at hm
    obtain ⟨f, -, rfl⟩ := List.mem_map.mp hm
    rfl
  · intro f ent hf hfind hk hb
    have hact : (fetchFile fetcherArgs dir f).2 = FileAction.resumed (f.2 - ent.bytes) := by
      have hc1 : ¬(fetcherArgs.resumeDownload = true ∧ ent.kind = EntryKind.regular ∧
          ent.bytes = f.2) := by
        rintro ⟨-, -, hbe⟩
        omega
      have hc2 : fetcherArgs.resumeDownload = true ∧ ent.kind = EntryKind.regular ∧
          ent.bytes < f.2 := ⟨rfl, hk, hb⟩
      simp only [fetchFile, hfind]
      rw [if_neg hc1, if_pos hc2]
    refine ⟨hact, ?_⟩
    have hmem : (fetchFile fetcherArgs dir f).2 ∈ (runFetcherFS repo dir).2 := by
      unfold runFetcherFS snapshot_download
      exact List.mem_map_of_mem _ hf
    rwa [hact] at hmem

theorem fetcher_no_symlinks_resume_witness :
    (fetchFile fetcherArgs demoDir ("weights.bin", 10)).2 = FileAction.resumed 6 ∧
    FileAction.resumed 6 ∈ (runFetcherFS demoRepo demoDir).2 :=
  (fetcher_no_symlinks_resume demoRepo demoDir).2.2.2 ("weights.bin", 10)
    { name := "weights.bin", kind := .regular, bytes := 4 }
    (by decide) (by decide) rfl (by decide)

/-- C4: Running the Fetcher's download twice against the same destination
directory leaves the directory in exactly the final state of a single run,
and the second run downloads nothing: every file is skipped as already
complete. -/
theorem fetcher_idempotent (repo : List (String × Nat)) (dir : List FileEntry)
    (hnd : (repo.map Prod.fst).Nodup) :
    runFetcherFS repo (runFetcherFS repo dir).1 =
      ((runFetcherFS repo dir).1, repo.map fun _ => FileAction.skipped) := by
  have h1 : (runFetcherFS repo dir).1 = repo.map completedEntry :=
    snapshot_fetcher_fst repo dir
  rw [h1]
  unfold runFetcherFS snapshot_download
  rw [Prod.mk.injEq]
  refine ⟨?_, ?_⟩
  · exact List.map_congr_left fun f hf => by rw [fetchFile_completed repo f hnd hf]
  · exact List.map_congr_left fun f hf => by rw [fetchFile_completed repo f hnd hf]

theorem fetcher_idempotent_witness :
    runFetcherFS demoRepo (runFetcherFS demoRepo demoDir).1 =
      ((runFetcherFS demoRepo demoDir).1, demoRepo.map fun _ => FileAction.skipped) :=
  fetcher_idempotent demoRepo demoDir (by decide)
